import Mathlib

/-!
Shallow embedding of the reliability core of the youtube.ai python backend:
the transactional outbox (outbox_service.py, tasks/outbox_publisher.py,
schedulers/outbox_publisher.py), the idempotent consumer guard
(processed_message_service.py, common/handlers/kafka.py, the two kafka
workers), the status state machine (video_status_log_service.py) and the
retry/backoff policy (common/constants/task_constants.py), together with
the generic repository semantics (database/repository.py) they run on.

Machine integers are modelled as Nat (the Python ints involved are
non-negative counters and identifiers); timestamps are Nat ticks; JSON
payloads are opaque strings; database tables are Lean lists kept in
insertion order, which matches `created_at` order because every insert
stamps a strictly increasing clock.
-/

namespace YoutubeAI

/-! ## Retry/backoff policy — common/constants/task_constants.py -/

/-- TRANSCRIPTION_TASK_CONFIG["max_retries"]. -/
def TRANSCRIPTION_max_retries : Nat := 3

/-- TRANSCRIPTION_TASK_CONFIG["initial_retry_delay"] (seconds). -/
def TRANSCRIPTION_initial_retry_delay : Nat := 10

/-- SUMMARY_TASK_CONFIG["max_retries"]. -/
def SUMMARY_max_retries : Nat := 3

/-- SUMMARY_TASK_CONFIG["initial_retry_delay"] (seconds). -/
def SUMMARY_initial_retry_delay : Nat := 5

/-- calculate_exponential_backoff_delay(initial_delay, retry_count, max_delay=300):
`delay = initial_delay * (2 ** retry_count); return min(delay, max_delay)`.
The Python default `max_delay=300` is passed explicitly at call sites here. -/
def calculate_exponential_backoff_delay
    (initial_delay retry_count max_delay : Nat) : Nat :=
  min (initial_delay * 2 ^ retry_count) max_delay

/-! ## Outbox data model — database/models.py (OutboxEvent) -/

/-- Row of the outbox_events table (database/models.py OutboxEvent). -/
structure OutboxEvent where
  id : Nat
  topic : String
  payload : String
  published : Bool
  attempts : Nat
  service : String
  created_at : Nat
  published_at : Option Nat
deriving DecidableEq, Repr

/-! ## SQLAlchemy session semantics for the outbox append (claim about
add_to_outbox).  A session holds uncommitted pending inserts; commit makes
them durable, rollback discards them.  GenericRepository.create
(database/repository.py lines 21-31) does `session.add(instance)` followed by
`session.commit()` — the commit is part of create itself. -/

/-- Session state: durable (committed) rows and pending uncommitted inserts. -/
structure OutboxSession where
  committed : List OutboxEvent
  pending : List OutboxEvent
deriving DecidableEq, Repr

/-- session.add(instance): stage an insert in the session. -/
def sessionAdd (s : OutboxSession) (e : OutboxEvent) : OutboxSession :=
  { s with pending := s.pending ++ [e] }

/-- session.commit(): flush all pending inserts to durable storage. -/
def sessionCommit (s : OutboxSession) : OutboxSession :=
  { committed := s.committed ++ s.pending, pending := [] }

/-- session.rollback(): discard pending (uncommitted) work. -/
def sessionRollback (s : OutboxSession) : OutboxSession :=
  { s with pending := [] }

/-- GenericRepository.create(data) for the OutboxEvent model:
builds the instance, `session.add`, `session.commit`, `session.refresh`,
returns the instance (repository.py lines 21-31). -/
def genericCreateOutbox (s : OutboxSession) (e : OutboxEvent) :
    OutboxSession × OutboxEvent :=
  (sessionCommit (sessionAdd s e), e)

/-- OutboxService.add_to_outbox(topic, payload, db_session, service)
(outbox_service.py lines 22-63): `repo.create(dict(topic, payload,
published=False, attempts=0, service))` on the caller's session.  `newId` and
`now` model the column defaults (uuid4 and server-side now()). -/
def add_to_outbox (s : OutboxSession) (topic payload service : String)
    (newId now : Nat) : OutboxSession × OutboxEvent :=
  genericCreateOutbox s
    { id := newId, topic := topic, payload := payload, published := false,
      attempts := 0, service := service, created_at := now,
      published_at := none }

/-! Theorems for the backoff policy claim. -/

/-- C6: calculate_exponential_backoff_delay is the pure function
min(initialDelay * 2^attemptNumber, maxDelay) with a zero-indexed attempt
number, and in particular nextDelay(10,0,300)=10, nextDelay(10,1,300)=20,
nextDelay(10,5,300)=300 (capped), nextDelay(5,0,300)=5. -/
theorem backoff_is_capped_exponential :
    (∀ i r m : Nat,
      calculate_exponential_backoff_delay i r m = min (i * 2 ^ r) m) ∧
    calculate_exponential_backoff_delay 10 0 300 = 10 ∧
    calculate_exponential_backoff_delay 10 1 300 = 20 ∧
    calculate_exponential_backoff_delay 10 5 300 = 300 ∧
    calculate_exponential_backoff_delay 5 0 300 = 5 := by
  refine ⟨fun i r m => rfl, by decide, by decide, by decide, by decide⟩

/-- C1 (code evaluated at the failing input): add_to_outbox on an open
session commits inside GenericRepository.create, so after the caller rolls
back, the outbox record is durable anyway — the record still exists after
rollback, and the session has no pending work left to roll back. -/
theorem add_to_outbox_survives_rollback :
    (sessionRollback
        (add_to_outbox { committed := [], pending := [] }
          "video.transcoded" "p" "python-backend" 1 0).1).committed =
      [{ id := 1, topic := "video.transcoded", payload := "p",
         published := false, attempts := 0, service := "python-backend",
         created_at := 0, published_at := none }] ∧
    (add_to_outbox { committed := [], pending := [] }
        "video.transcoded" "p" "python-backend" 1 0).1.pending = [] := by
  exact ⟨rfl, rfl⟩

/-! ## Idempotent consumer guard — processed_message_service.py on top of
database/repository.py.  The processed_messages table is a list of rows; a
storage fault for the lookup is injected through an explicit `fault`
parameter (the shallow embedding of "find_one may raise"). -/

/-- Row of the processed_messages table (id is the event identifier,
unique). -/
structure ProcessedRow where
  id : String
  topic : String
deriving DecidableEq, Repr

/-- Substring test on character lists (models Python `in` on strings). -/
def listContainsSub (sub : List Char) : List Char → Bool
  | [] => sub.isEmpty
  | c :: rest => sub.isPrefixOf (c :: rest) || listContainsSub sub rest

/-- Models `"unique constraint" in str(e).lower() or "duplicate key" in
str(e).lower()` (processed_message_service.py line 80). -/
def errIsUniqueViolation (e : String) : Bool :=
  let low := e.data.map Char.toLower
  listContainsSub "unique constraint".data low ||
    listContainsSub "duplicate key".data low

/-- Error message raised by GenericRepository.create on an IntegrityError
(repository.py line 31); for a duplicate insert the wrapped driver message
is the Postgres unique-violation text. -/
def duplicateKeyError (model : String) : String :=
  "Failed to create " ++ model ++
    ": duplicate key value violates unique constraint"

/-- GenericRepository.create for the ProcessedMessage model: the insert hits
the unique constraint on id when a row with that id exists, and the
IntegrityError is re-raised as a ValueError carrying the driver message
(repository.py lines 21-31); otherwise the row is inserted and returned. -/
def pmCreate (db : List ProcessedRow) (event_id topic : String) :
    Except String (List ProcessedRow × ProcessedRow) :=
  if db.any (fun m => m.id == event_id) then
    .error (duplicateKeyError "ProcessedMessage")
  else
    .ok (db ++ [⟨event_id, topic⟩], ⟨event_id, topic⟩)

/-- find_one on the processed_messages table; `fault` injects a storage
error (the `except` path of is_processed). -/
def find_one_processed (fault : Option String) (db : List ProcessedRow)
    (event_id : String) : Except String (Option ProcessedRow) :=
  match fault with
  | some err => .error err
  | none => .ok (db.find? (fun m => m.id == event_id))

/-- ProcessedMessageService.is_processed(event_id, topic)
(processed_message_service.py lines 21-44): true when a row with the event
id exists (a topic mismatch is only logged as a warning and does not change
the result), false when no row exists, and false when the lookup raises
(fail open). -/
def is_processed (fault : Option String) (db : List ProcessedRow)
    (event_id : String) (topic : Option String) : Bool :=
  match find_one_processed fault db event_id with
  | .ok (some _) => true
  | .ok none => false
  | .error _ => false

/-- ProcessedMessageService.mark_as_processed(event_id, topic, skip_check)
(processed_message_service.py lines 46-90): unless skip_check, an existing
row is returned as-is; otherwise create is attempted, and a unique-constraint
or duplicate-key violation is treated as success returning the existing row;
any other creation error propagates. -/
def mark_as_processed (db : List ProcessedRow) (event_id topic : String)
    (skip_check : Bool) :
    Except String (List ProcessedRow × Option ProcessedRow) :=
  let created : Except String (List ProcessedRow × Option ProcessedRow) :=
    match pmCreate db event_id topic with
    | .ok (db2, m) => .ok (db2, some m)
    | .error e =>
      if errIsUniqueViolation e then
        .ok (db, db.find? (fun m => m.id == event_id))
      else
        .error e
  if !skip_check then
    match db.find? (fun m => m.id == event_id) with
    | some existing => .ok (db, some existing)
    | none => created
  else created

/-- C5: when the storage lookup inside is_processed raises, the operation
returns false (fails open) for every database state, event id and topic —
it neither propagates the error nor returns true. -/
theorem is_processed_fails_open (db : List ProcessedRow) (event_id : String)
    (topic : Option String) (err : String) :
    is_processed (some err) db event_id topic = false := rfl

/-- C10: deduplication is keyed by the event identifier alone — whenever a
row with the queried id exists, is_processed returns true for every queried
topic (the stored topic is never compared for the result), and the result
never depends on the topic argument at all. -/
theorem is_processed_ignores_topic (db : List ProcessedRow)
    (event_id : String) (m : ProcessedRow) (t : Option String)
    (h : db.find? (fun r => r.id == event_id) = some m) :
    is_processed none db event_id t = true ∧
    ∀ t1 t2 : Option String,
      is_processed none db event_id t1 = is_processed none db event_id t2 := by
  refine ⟨?_, fun t1 t2 => rfl⟩
  simp [is_processed, find_one_processed, h]

/-- Witness for C10: the stored row has topic "video.transcoded" but the
query asks about "video.transcribed"; is_processed still answers true. -/
theorem is_processed_ignores_topic_witness :
    ([⟨"e1", "video.transcoded"⟩] : List ProcessedRow).find?
        (fun r => r.id == "e1") = some ⟨"e1", "video.transcoded"⟩ ∧
    (is_processed none [⟨"e1", "video.transcoded"⟩] "e1"
        (some "video.transcribed") = true ∧
      ∀ t1 t2 : Option String,
        is_processed none [⟨"e1", "video.transcoded"⟩] "e1" t1 =
          is_processed none [⟨"e1", "video.transcoded"⟩] "e1" t2) :=
  ⟨by decide,
   is_processed_ignores_topic [⟨"e1", "video.transcoded"⟩] "e1"
     ⟨"e1", "video.transcoded"⟩ (some "video.transcribed") (by decide)⟩

/-- C4: starting from a state with no row for X, a first mark_as_processed
call inserts the row and succeeds, and a second call for the same X — with
either skip_check value, in particular the racing skip_check=true path whose
insert hits the unique-constraint violation — also succeeds, returns the
existing record, changes nothing, and exactly one row for X remains. -/
theorem mark_as_processed_race (db : List ProcessedRow) (X T : String)
    (b1 b2 : Bool) (h : db.find? (fun m => m.id == X) = none) :
    ∃ db1 m1 db2 m2,
      mark_as_processed db X T b1 = .ok (db1, some m1) ∧
      mark_as_processed db1 X T b2 = .ok (db2, some m2) ∧
      (db2.filter (fun m => m.id == X)).length = 1 ∧ db2 = db1 := by
  have hall : ∀ m ∈ db, ¬ ((m.id == X) = true) := List.find?_eq_none.mp h
  have hany : db.any (fun m => m.id == X) = false := by
    cases hb : db.any (fun m => m.id == X)
    · rfl
    · obtain ⟨m, hm, hpm⟩ := List.any_eq_true.mp hb
      exact absurd hpm (hall m hm)
  have hcreate : pmCreate db X T = .ok (db ++ [⟨X, T⟩], ⟨X, T⟩) := by
    simp [pmCreate, hany]
  have hfind1 : (db ++ [(⟨X, T⟩ : ProcessedRow)]).find?
      (fun m => m.id == X) = some ⟨X, T⟩ := by
    rw [List.find?_append, h]
    simp
  have hm1 : mark_as_processed db X T b1 = .ok (db ++ [⟨X, T⟩], some ⟨X, T⟩) := by
    cases b1 <;> simp [mark_as_processed, h, hcreate]
  have hany1 : (db ++ [(⟨X, T⟩ : ProcessedRow)]).any
      (fun m => m.id == X) = true := by
    refine List.any_eq_true.mpr ⟨⟨X, T⟩, ?_, ?_⟩
    · exact List.mem_append_right _ (List.mem_singleton.mpr rfl)
    · simp
  have hcreate1 : pmCreate (db ++ [(⟨X, T⟩ : ProcessedRow)]) X T =
      .error (duplicateKeyError "ProcessedMessage") := by
    simp [pmCreate, hany1]
  have hdup : errIsUniqueViolation (duplicateKeyError "ProcessedMessage") = true := by
    decide
  have hm2 : mark_as_processed (db ++ [⟨X, T⟩]) X T b2 =
      .ok (db ++ [⟨X, T⟩], some ⟨X, T⟩) := by
    cases b2 <;> simp [mark_as_processed, hfind1, hcreate1, hdup]
  refine ⟨db ++ [⟨X, T⟩], ⟨X, T⟩, db ++ [⟨X, T⟩], ⟨X, T⟩, hm1, hm2, ?_, rfl⟩
  have hnil : db.filter (fun m => m.id == X) = [] :=
    List.filter_eq_nil_iff.mpr hall
  rw [List.filter_append, hnil]
  simp

/-- Witness for C4: empty ledger, event "e1" on topic "video.transcoded",
both calls on the racing skip_check=true path. -/
theorem mark_as_processed_race_witness :
    (([] : List ProcessedRow).find? (fun m => m.id == "e1") = none) ∧
    (∃ db1 m1 db2 m2,
      mark_as_processed [] "e1" "video.transcoded" true = .ok (db1, some m1) ∧
      mark_as_processed db1 "e1" "video.transcoded" true = .ok (db2, some m2) ∧
      (db2.filter (fun m => m.id == "e1")).length = 1 ∧ db2 = db1) :=
  ⟨by decide,
   mark_as_processed_race [] "e1" "video.transcoded" true true (by decide)⟩

/-! ## Status state machine — video_status_log_service.py over the
videos and video_status_logs tables (database/models.py). -/

/-- Row of the videos table — the fields the reliability core touches
(database/models.py Videos). -/
structure VideoRow where
  id : Nat
  status : String
  status_message : Option String
deriving DecidableEq, Repr

/-- Row of the video_status_logs table (database/models.py VideoStatusLog). -/
structure StatusLogRow where
  video_id : Nat
  status : String
  actor : String
  status_message : Option String
  created_at : Nat
deriving DecidableEq, Repr

/-- Store visible to the status machinery: the videos table, the status-log
table in insertion order, and the clock stamping created_at (strictly
increasing, so insertion order is created_at order). -/
structure LogDB where
  videos : List VideoRow
  logs : List StatusLogRow
  now : Nat
deriving DecidableEq, Repr

/-- Embeds `find_all(where=dict(video_id), limit=1, order_by="created_at
DESC")` (video_status_log_service.py lines 43-48): the logs list is kept in
creation order with strictly increasing created_at, so the most recent
matching row is the last matching row. -/
def latest_log (db : LogDB) (video_id : Nat) : Option StatusLogRow :=
  (db.logs.filter (fun l => l.video_id == video_id)).getLast?

/-- Condition under which log_status_change writes a row: no previous log
for the video, or the latest one has a different status
(video_status_log_service.py lines 50-57). -/
def shouldLog (db : LogDB) (video_id : Nat) (status : String) : Bool :=
  match latest_log db video_id with
  | some l => !(l.status == status)
  | none => true

/-- Row inserted by the write branch of log_status_change, stamped with the
current clock. -/
def mkLogRow (video_id : Nat) (status actor : String)
    (status_message : Option String) (created_at : Nat) : StatusLogRow :=
  { video_id := video_id, status := status, actor := actor,
    status_message := status_message, created_at := created_at }

/-- VideoStatusLogService.log_status_change(video_id, status, actor,
status_message) (video_status_log_service.py lines 20-77): returns None
without writing when the latest log row for the video already has this
status, otherwise inserts a new log row and returns it.  It touches only the
video_status_logs table — the videos table is not read or written. -/
def log_status_change (db : LogDB) (video_id : Nat) (status actor : String)
    (status_message : Option String) : LogDB × Option StatusLogRow :=
  if shouldLog db video_id status then
    let row := mkLogRow video_id status actor status_message db.now
    ({ db with logs := db.logs ++ [row], now := db.now + 1 }, some row)
  else
    (db, none)

/-- Store used for the concrete status-log scenarios: one video in status
"pending" and an empty status-log table. -/
def sampleLogDB : LogDB :=
  { videos := [{ id := 1, status := "pending", status_message := none }],
    logs := [], now := 0 }

/-- Store whose latest log row for video 1 already says "summarizing". -/
def sampleLogDB2 : LogDB :=
  { videos := [{ id := 1, status := "summarizing", status_message := none }],
    logs := [mkLogRow 1 "summarizing" "system" none 0], now := 1 }

/-- Counterexample to C2 as stated: video 1 has status "pending"; calling
log_status_change twice with "summarizing" produces exactly one log row and
the second call returns none, but the video's own status field is still
"pending", not "summarizing" — the operation has no such side effect.  And
when the latest log row already has the status (sampleLogDB2), the double
call writes zero new rows, so "exactly one new row" also fails there. -/
theorem log_status_change_no_entity_update :
    ((log_status_change
        (log_status_change sampleLogDB2 1 "summarizing" "system" none).1
        1 "summarizing" "system" none).1.logs.length =
      sampleLogDB2.logs.length ∧
     (log_status_change sampleLogDB2 1 "summarizing" "system" none).2 =
      none) ∧
    ((log_status_change
        (log_status_change sampleLogDB 1 "summarizing" "system" none).1
        1 "summarizing" "system" none).2 = none ∧
      (log_status_change sampleLogDB
        1 "summarizing" "system" none).1.logs.length = 1) ∧
    ¬ (((log_status_change
          (log_status_change sampleLogDB 1 "summarizing" "system" none).1
          1 "summarizing" "system" none).1.videos.find?
            (fun v => v.id == 1)).map (fun v => v.status) =
        some "summarizing") := by
  decide

/-- C2 amended: calling log_status_change twice in a row with the same
status writes at most one new log row — exactly one when the latest log row
differed (then the first call returns it), none when it already matched —
and the second call writes nothing and returns none; the videos table is
left completely unchanged by both calls (the operation never updates the
entity's status field; callers do that separately). -/
theorem log_status_change_idempotent (db : LogDB) (video_id : Nat)
    (status actor : String) (msg : Option String) :
    (log_status_change (log_status_change db video_id status actor msg).1
        video_id status actor msg).2 = none ∧
    (log_status_change (log_status_change db video_id status actor msg).1
        video_id status actor msg).1 =
      (log_status_change db video_id status actor msg).1 ∧
    (log_status_change db video_id status actor msg).1.videos = db.videos ∧
    (log_status_change db video_id status actor msg).1.logs.length =
      db.logs.length + (if shouldLog db video_id status then 1 else 0) ∧
    (shouldLog db video_id status = true →
      (log_status_change db video_id status actor msg).2.isSome = true) := by
  by_cases hs : shouldLog db video_id status = true
  · set p := log_status_change db video_id status actor msg with hp
    have hrow : p.1.logs =
        db.logs ++ [mkLogRow video_id status actor msg db.now] := by
      rw [hp]; simp [log_status_change, hs]
    have hlatest : latest_log p.1 video_id =
        some (mkLogRow video_id status actor msg db.now) := by
      unfold latest_log
      rw [hrow, List.filter_append]
      simp [mkLogRow]
    have hs2 : shouldLog p.1 video_id status = false := by
      unfold shouldLog
      rw [hlatest]
      simp [mkLogRow]
    have h2 : log_status_change p.1 video_id status actor msg = (p.1, none) := by
      unfold log_status_change
      simp [hs2]
    refine ⟨by rw [h2], by rw [h2], ?_, ?_, ?_⟩
    · rw [hp]; simp [log_status_change, hs]
    · rw [hrow]; simp [hs]
    · intro _; rw [hp]; simp [log_status_change, hs]
  · have hs' : shouldLog db video_id status = false := by
      simpa using hs
    have h1 : log_status_change db video_id status actor msg = (db, none) := by
      simp [log_status_change, hs']
    rw [h1]
    refine ⟨?_, ?_, rfl, ?_, ?_⟩
    · simp [log_status_change, hs']
    · simp [log_status_change, hs']
    · simp [hs']
    · intro hcon
      exact absurd hcon (by simp [hs'])

/-- Witness for C2 amended: fresh video, first call logs "summarizing",
second call is a no-op returning none and the videos table never changes. -/
theorem log_status_change_idempotent_witness :
    (log_status_change
        (log_status_change sampleLogDB 1 "summarizing" "system" none).1
        1 "summarizing" "system" none).2 = none ∧
    (log_status_change
        (log_status_change sampleLogDB 1 "summarizing" "system" none).1
        1 "summarizing" "system" none).1 =
      (log_status_change sampleLogDB 1 "summarizing" "system" none).1 ∧
    (log_status_change sampleLogDB 1 "summarizing" "system" none).1.videos =
      sampleLogDB.videos ∧
    (log_status_change sampleLogDB
        1 "summarizing" "system" none).1.logs.length =
      sampleLogDB.logs.length +
        (if shouldLog sampleLogDB 1 "summarizing" then 1 else 0) ∧
    (shouldLog sampleLogDB 1 "summarizing" = true →
      (log_status_change sampleLogDB
          1 "summarizing" "system" none).2.isSome = true) :=
  log_status_change_idempotent sampleLogDB 1 "summarizing" "system" none

/-! ## Outbox service mutations and the publisher —
modules/videos/services/outbox_service.py, tasks/outbox_publisher.py and
schedulers/outbox_publisher.py.  The outbox_events table is a list kept in
creation order (created_at ASC).  `sendOk` is the oracle for
kafka_producer.publish: the bus either accepts or rejects a record's send. -/

/-- find_one(dict(id)) on the outbox_events table: the first (unique) row
whose id matches. -/
def findById (db : List OutboxEvent) (i : Nat) : Option OutboxEvent :=
  db.find? (fun e => e.id == i)

/-- GenericRepository.update(where, data): mutate the single instance
matching the criteria (repository.py lines 102-113). -/
def updateFirst {α : Type} (p : α → Bool) (f : α → α) : List α → List α
  | [] => []
  | a :: rest => if p a then f a :: rest else a :: updateFirst p f rest

/-- OutboxService.mark_as_published(event_id) (outbox_service.py lines
79-106): if the row exists, set published=True and published_at=now;
otherwise do nothing. -/
def mark_as_published (db : List OutboxEvent) (event_id now : Nat) :
    List OutboxEvent :=
  match findById db event_id with
  | none => db
  | some _ =>
    updateFirst (fun e => e.id == event_id)
      (fun e => { e with published := true, published_at := some now }) db

/-- OutboxService.increment_attempts(event_id) (outbox_service.py lines
108-125): if the row exists, set attempts to the fetched value plus one;
nothing else is written. -/
def increment_attempts (db : List OutboxEvent) (event_id : Nat) :
    List OutboxEvent :=
  match findById db event_id with
  | none => db
  | some ev =>
    updateFirst (fun e => e.id == event_id)
      (fun e => { e with attempts := ev.attempts + 1 }) db

/-- OutboxService.get_unpublished_events(limit) (outbox_service.py lines
65-77): unpublished rows, oldest first (the list is in created_at order),
bounded by limit. -/
def get_unpublished_events (db : List OutboxEvent) (limit : Nat) :
    List OutboxEvent :=
  (db.filter (fun e => !e.published)).take limit

/-- Result of one publish_outbox_event_task run. -/
inductive PublishResult where
  | errorNotFound
  | skipped
  | success
  | retry (err : String)
deriving DecidableEq, Repr

/-- publish_outbox_event_task(event_id) (tasks/outbox_publisher.py lines
37-100): missing row is an error result; an already-published row is
skipped; a successful bus send marks the row published; a failed send
increments attempts and the task raises into its own retry (the row stays
unpublished for the next poll cycle). -/
def publish_outbox_event_task (db : List OutboxEvent) (sendOk : Nat → Bool)
    (now : Nat) (event_id : Nat) : List OutboxEvent × PublishResult :=
  match findById db event_id with
  | none => (db, .errorNotFound)
  | some event =>
    if event.published then (db, .skipped)
    else if sendOk event.id then
      (mark_as_published db event_id now, .success)
    else
      (increment_attempts db event_id, .retry "Failed to publish to Kafka")

/-- OutboxPublisherScheduler.poll_and_publish (schedulers/outbox_publisher.py
lines 29-64): fetch up to 100 unpublished events and run one publish task per
event; the tasks are independent Celery jobs, linearized here in batch
order. -/
def poll_and_publish (db : List OutboxEvent) (sendOk : Nat → Bool)
    (now : Nat) : List OutboxEvent :=
  (get_unpublished_events db 100).foldl
    (fun d ev => (publish_outbox_event_task d sendOk now ev.id).1) db

/-- Per-record outcome of one publisher cycle, as the claim describes it:
published rows are untouched, rows whose send succeeds become published,
rows whose send fails get attempts+1 and stay unpublished. -/
def applyOutcome (sendOk : Nat → Bool) (now : Nat) (e : OutboxEvent) :
    OutboxEvent :=
  if e.published then e
  else if sendOk e.id then { e with published := true, published_at := some now }
  else { e with attempts := e.attempts + 1 }

lemma findById_updateFirst_ne (db : List OutboxEvent)
    (f : OutboxEvent → OutboxEvent) (j i : Nat) (hij : i ≠ j)
    (hf : ∀ x, (f x).id = x.id) :
    findById (updateFirst (fun e => e.id == j) f db) i = findById db i := by
  induction db with
  | nil => rfl
  | cons a rest ih =>
    by_cases ha : a.id = j
    · have hb : (a.id == j) = true := beq_iff_eq.mpr ha
      have h1 : ((f a).id == i) = false := by
        rw [hf a, ha]
        exact beq_eq_false_iff_ne.mpr fun h => hij h.symm
      have h2 : (a.id == i) = false := by
        rw [ha]
        exact beq_eq_false_iff_ne.mpr fun h => hij h.symm
      simp [updateFirst, hb, findById, List.find?_cons, h1, h2]
    · have hb : (a.id == j) = false := beq_eq_false_iff_ne.mpr ha
      simp only [updateFirst, hb, Bool.false_eq_true, if_false, findById,
        List.find?_cons]
      cases hai : (a.id == i) with
      | true => simp
      | false => simpa using ih

lemma findById_updateFirst_self (db : List OutboxEvent)
    (f : OutboxEvent → OutboxEvent) (j : Nat) (e : OutboxEvent)
    (hf : ∀ x, (f x).id = x.id) (h : findById db j = some e) :
    findById (updateFirst (fun x => x.id == j) f db) j = some (f e) := by
  induction db with
  | nil => exact absurd h (by simp [findById])
  | cons a rest ih =>
    by_cases ha : (a.id == j) = true
    · have hae : a = e := by
        rw [findById] at h
        simp only [List.find?_cons, ha] at h
        exact Option.some.inj h
      subst hae
      have hfa : ((f a).id == j) = true := by rw [hf a]; exact ha
      simp [updateFirst, ha, findById, List.find?_cons, hfa]
    · have hb : (a.id == j) = false := by simpa using ha
      have hrest : findById rest j = some e := by
        rw [findById] at h
        simp only [List.find?_cons, hb] at h
        exact h
      simp only [updateFirst, hb, Bool.false_eq_true, if_false, findById,
        List.find?_cons]
      simpa using ih hrest

lemma findById_mark_ne (db : List OutboxEvent) (eid now i : Nat)
    (h : i ≠ eid) :
    findById (mark_as_published db eid now) i = findById db i := by
  unfold mark_as_published
  cases findById db eid with
  | none => rfl
  | some ev => exact findById_updateFirst_ne db _ eid i h (fun x => rfl)

lemma findById_inc_ne (db : List OutboxEvent) (eid i : Nat) (h : i ≠ eid) :
    findById (increment_attempts db eid) i = findById db i := by
  unfold increment_attempts
  cases findById db eid with
  | none => rfl
  | some ev => exact findById_updateFirst_ne db _ eid i h (fun x => rfl)

lemma findById_task_ne (db : List OutboxEvent) (sendOk : Nat → Bool)
    (now eid i : Nat) (h : i ≠ eid) :
    findById (publish_outbox_event_task db sendOk now eid).1 i =
      findById db i := by
  unfold publish_outbox_event_task
  cases hfind : findById db eid with
  | none => rfl
  | some ev =>
    by_cases hp : ev.published = true
    · simp [hp]
    · have hp' : ev.published = false := by simpa using hp
      by_cases hs : sendOk ev.id = true
      · simp [hp', hs, findById_mark_ne db eid now i h]
      · have hs' : sendOk ev.id = false := by simpa using hs
        simp [hp', hs', findById_inc_ne db eid i h]

lemma findById_mark_self (db : List OutboxEvent) (eid now : Nat)
    (e : OutboxEvent) (h : findById db eid = some e) :
    findById (mark_as_published db eid now) eid =
      some { e with published := true, published_at := some now } := by
  unfold mark_as_published
  rw [h]
  exact findById_updateFirst_self db
    (fun x => { x with published := true, published_at := some now }) eid e
    (fun x => rfl) h

lemma findById_inc_self (db : List OutboxEvent) (eid : Nat)
    (e : OutboxEvent) (h : findById db eid = some e) :
    findById (increment_attempts db eid) eid =
      some { e with attempts := e.attempts + 1 } := by
  unfold increment_attempts
  rw [h]
  exact findById_updateFirst_self db
    (fun x => { x with attempts := e.attempts + 1 }) eid e
    (fun x => rfl) h

lemma publish_task_eq (db : List OutboxEvent) (sendOk : Nat → Bool)
    (now eid : Nat) (e : OutboxEvent) (h : findById db eid = some e) :
    publish_outbox_event_task db sendOk now eid =
      if e.published then (db, .skipped)
      else if sendOk e.id then (mark_as_published db eid now, .success)
      else (increment_attempts db eid,
        .retry "Failed to publish to Kafka") := by
  unfold publish_outbox_event_task
  rw [h]

lemma findById_task_self (db : List OutboxEvent) (sendOk : Nat → Bool)
    (now eid : Nat) (e : OutboxEvent) (h : findById db eid = some e) :
    findById (publish_outbox_event_task db sendOk now eid).1 eid =
      some (applyOutcome sendOk now e) := by
  rw [publish_task_eq db sendOk now eid e h]
  by_cases hp : e.published = true
  · simp [hp, applyOutcome, h]
  · have hp' : e.published = false := by simpa using hp
    by_cases hs : sendOk e.id = true
    · simp [hp', hs, findById_mark_self db eid now e h, applyOutcome]
    · have hs' : sendOk e.id = false := by simpa using hs
      simp [hp', hs', findById_inc_self db eid e h, applyOutcome]

lemma foldl_tasks_ne (sendOk : Nat → Bool) (now i : Nat)
    (todo : List OutboxEvent) (d : List OutboxEvent)
    (hne : ∀ b ∈ todo, b.id ≠ i) :
    findById (todo.foldl
      (fun d ev => (publish_outbox_event_task d sendOk now ev.id).1) d) i =
      findById d i := by
  induction todo generalizing d with
  | nil => rfl
  | cons b rest ih =>
    rw [List.foldl_cons,
      ih _ (fun x hx => hne x (List.mem_cons_of_mem b hx))]
    exact findById_task_ne d sendOk now b.id i
      (fun hh => hne b (List.mem_cons_self b rest) hh.symm)

/-- C7: one publisher cycle treats each outbox record independently — for
every id, the record after poll_and_publish is exactly the original record
with its own outcome applied: already-published records are untouched,
records whose bus send succeeds become published (with published_at set),
and records whose send fails get exactly attempts+1 and remain unpublished;
no record's failure disturbs any other record or aborts the cycle. -/
theorem poll_and_publish_isolates (db : List OutboxEvent)
    (sendOk : Nat → Bool) (now : Nat)
    (hnodup : (db.map (fun e => e.id)).Nodup) (hlen : db.length ≤ 100) :
    ∀ i, findById (poll_and_publish db sendOk now) i =
      (findById db i).map (applyOutcome sendOk now) := by
  intro i
  unfold poll_and_publish get_unpublished_events
  have htake : (db.filter (fun e => !e.published)).take 100 =
      db.filter (fun e => !e.published) :=
    List.take_of_length_le (le_trans (List.length_filter_le _ _) hlen)
  rw [htake]
  cases hfind : findById db i with
  | none =>
    have hni : ∀ b ∈ db.filter (fun e => !e.published), b.id ≠ i := by
      intro b hb
      have hbdb : b ∈ db := (List.mem_filter.mp hb).1
      have := List.find?_eq_none.mp hfind b hbdb
      simpa using this
    rw [foldl_tasks_ne sendOk now i _ db hni, hfind]
    rfl
  | some e =>
    have hedb : e ∈ db := List.mem_of_find?_eq_some hfind
    have heid : e.id = i := by
      have := List.find?_some hfind
      simpa using this
    have hinj : ∀ x ∈ db, ∀ y ∈ db, x.id = y.id → x = y :=
      List.inj_on_of_nodup_map hnodup
    by_cases hp : e.published = true
    · have hni : ∀ b ∈ db.filter (fun x => !x.published), b.id ≠ i := by
        intro b hb hbi
        have hbdb : b ∈ db := (List.mem_filter.mp hb).1
        have hbnp : b.published = false := by
          have := (List.mem_filter.mp hb).2
          simpa using this
        have hbe : b = e := hinj b hbdb e hedb (by rw [hbi, heid])
        rw [hbe, hp] at hbnp
        exact absurd hbnp (by simp)
      rw [foldl_tasks_ne sendOk now i _ db hni, hfind]
      simp [applyOutcome, hp]
    · have hp' : e.published = false := by simpa using hp
      have hef : e ∈ db.filter (fun x => !x.published) :=
        List.mem_filter.mpr ⟨hedb, by simp [hp']⟩
      obtain ⟨s, t, hst⟩ := List.append_of_mem hef
      have hbatchnd :
          ((db.filter (fun x => !x.published)).map (fun e => e.id)).Nodup :=
        hnodup.sublist ((db.filter_sublist).map (fun e => e.id))
      rw [hst, List.map_append, List.map_cons, List.nodup_append]
        at hbatchnd
      have hs_ne : ∀ b ∈ s, b.id ≠ i := by
        intro b hb hbi
        refine hbatchnd.2.2 (List.mem_map_of_mem (fun e => e.id) hb) ?_
        rw [hbi, ← heid]
        exact List.mem_cons_self _ _
      have ht_ne : ∀ b ∈ t, b.id ≠ i := by
        intro b hb hbi
        have hnotin : e.id ∉ t.map (fun e => e.id) :=
          (List.nodup_cons.mp hbatchnd.2.1).1
        refine hnotin ?_
        rw [heid, ← hbi]
        exact List.mem_map_of_mem (fun e => e.id) hb
      rw [hst, List.foldl_append, List.foldl_cons]
      have hmid : findById (s.foldl
          (fun d ev => (publish_outbox_event_task d sendOk now ev.id).1) db)
          i = some e := by
        rw [foldl_tasks_ne sendOk now i s db hs_ne, hfind]
      have hstep : findById (publish_outbox_event_task
          (s.foldl (fun d ev =>
            (publish_outbox_event_task d sendOk now ev.id).1) db)
          sendOk now e.id).1 i = some (applyOutcome sendOk now e) := by
        rw [heid]
        exact findById_task_self _ sendOk now i e hmid
      rw [foldl_tasks_ne sendOk now i t _ ht_ne]
      simpa using hstep

/-- Outbox record as created by add_to_outbox, used for the concrete
publisher scenarios: unpublished, zero attempts, created at tick i. -/
def outboxRec (i : Nat) : OutboxEvent :=
  { id := i, topic := "video.transcoded", payload := "p", published := false,
    attempts := 0, service := "python-backend", created_at := i,
    published_at := none }

/-- Batch of three unpublished records. -/
def sampleOutbox : List OutboxEvent := [outboxRec 1, outboxRec 2, outboxRec 3]

/-- Bus oracle that rejects exactly record 2's send. -/
def failSecond : Nat → Bool := fun i => !(i == 2)

/-- Witness for C7: with three unpublished records and the send failing only
for record 2, the cycle publishes records 1 and 3 and leaves record 2
unpublished with attempts incremented to 1. -/
theorem poll_and_publish_isolates_witness :
    ((sampleOutbox.map (fun e => e.id)).Nodup ∧ sampleOutbox.length ≤ 100) ∧
    (findById (poll_and_publish sampleOutbox failSecond 7) 1 =
        (findById sampleOutbox 1).map (applyOutcome failSecond 7) ∧
      findById (poll_and_publish sampleOutbox failSecond 7) 2 =
        (findById sampleOutbox 2).map (applyOutcome failSecond 7) ∧
      findById (poll_and_publish sampleOutbox failSecond 7) 3 =
        (findById sampleOutbox 3).map (applyOutcome failSecond 7)) ∧
    poll_and_publish sampleOutbox failSecond 7 =
      [{ outboxRec 1 with published := true, published_at := some 7 },
       { outboxRec 2 with attempts := 1 },
       { outboxRec 3 with published := true, published_at := some 7 }] :=
  ⟨⟨by decide, by decide⟩,
   ⟨poll_and_publish_isolates sampleOutbox failSecond 7 (by decide)
      (by decide) 1,
    poll_and_publish_isolates sampleOutbox failSecond 7 (by decide)
      (by decide) 2,
    poll_and_publish_isolates sampleOutbox failSecond 7 (by decide)
      (by decide) 3⟩,
   by decide⟩

/-! ## Invariants of the outbox mutations under arbitrary call sequences. -/

/-- One OutboxService mutation call: mark_as_published(event_id) at tick now,
or increment_attempts(event_id). -/
inductive OutboxOp where
  | markPub (event_id now : Nat)
  | incAtt (event_id : Nat)
deriving DecidableEq, Repr

/-- Apply one OutboxService mutation to the table. -/
def applyOp (db : List OutboxEvent) : OutboxOp → List OutboxEvent
  | .markPub i n => mark_as_published db i n
  | .incAtt i => increment_attempts db i

/-- Apply a sequence of OutboxService mutations left to right. -/
def applyOps (db : List OutboxEvent) (ops : List OutboxOp) :
    List OutboxEvent :=
  ops.foldl applyOp db

lemma findById_applyOp (db : List OutboxEvent) (op : OutboxOp) (i : Nat)
    (e : OutboxEvent) (h : findById db i = some e) :
    ∃ e2, findById (applyOp db op) i = some e2 ∧
      (e.published = true → e2.published = true) ∧
      e.attempts ≤ e2.attempts := by
  cases op with
  | markPub j n =>
    by_cases hij : i = j
    · subst hij
      refine ⟨{ e with published := true, published_at := some n },
        findById_mark_self db i n e h, fun _ => rfl, Nat.le_refl _⟩
    · exact ⟨e, by
        show findById (mark_as_published db j n) i = some e
        rw [findById_mark_ne db j n i hij]
        exact h, fun hh => hh, Nat.le_refl _⟩
  | incAtt j =>
    by_cases hij : i = j
    · subst hij
      refine ⟨{ e with attempts := e.attempts + 1 },
        findById_inc_self db i e h, fun hh => hh, Nat.le_succ _⟩
    · exact ⟨e, by
        show findById (increment_attempts db j) i = some e
        rw [findById_inc_ne db j i hij]
        exact h, fun hh => hh, Nat.le_refl _⟩

/-- C9: under every sequence of mark_as_published / increment_attempts
calls, a record's published flag only ever goes false→true and never
reverts (so mark_as_published is safe to call twice) and its attempts
counter never decreases; moreover a single increment_attempts call changes
only the attempts field — published, published_at and every other field are
untouched, with attempts growing by at most one. -/
theorem outbox_flags_monotone (db : List OutboxEvent) (ops : List OutboxOp)
    (i : Nat) (e : OutboxEvent) (h : findById db i = some e) :
    (∃ e2, findById (applyOps db ops) i = some e2 ∧
      (e.published = true → e2.published = true) ∧
      e.attempts ≤ e2.attempts) ∧
    (∀ j, ∃ e3, findById (increment_attempts db j) i = some e3 ∧
      e3.published = e.published ∧ e3.published_at = e.published_at ∧
      e3.id = e.id ∧ e3.topic = e.topic ∧ e3.payload = e.payload ∧
      e3.service = e.service ∧ e3.created_at = e.created_at ∧
      (e3.attempts = e.attempts ∨ e3.attempts = e.attempts + 1)) := by
  constructor
  · induction ops generalizing db e with
    | nil => exact ⟨e, h, fun hh => hh, Nat.le_refl _⟩
    | cons op rest ih =>
      obtain ⟨e1, h1, hpub1, hatt1⟩ := findById_applyOp db op i e h
      obtain ⟨e2, h2, hpub2, hatt2⟩ := ih (applyOp db op) e1 h1
      exact ⟨e2, h2, fun hh => hpub2 (hpub1 hh), Nat.le_trans hatt1 hatt2⟩
  · intro j
    by_cases hij : i = j
    · subst hij
      exact ⟨{ e with attempts := e.attempts + 1 },
        findById_inc_self db i e h, rfl, rfl, rfl, rfl, rfl, rfl, rfl,
        Or.inr rfl⟩
    · exact ⟨e, by rw [findById_inc_ne db j i hij]; exact h,
        rfl, rfl, rfl, rfl, rfl, rfl, rfl, Or.inl rfl⟩

/-- Witness for C9: record 1 of the three-record batch, under the sequence
mark_as_published twice, then increment_attempts on it and on record 2. -/
theorem outbox_flags_monotone_witness :
    findById sampleOutbox 1 = some (outboxRec 1) ∧
    ((∃ e2, findById (applyOps sampleOutbox
        [.markPub 1 5, .markPub 1 6, .incAtt 1, .incAtt 2]) 1 = some e2 ∧
      ((outboxRec 1).published = true → e2.published = true) ∧
      (outboxRec 1).attempts ≤ e2.attempts) ∧
    (∀ j, ∃ e3, findById (increment_attempts sampleOutbox j) 1 = some e3 ∧
      e3.published = (outboxRec 1).published ∧
      e3.published_at = (outboxRec 1).published_at ∧
      e3.id = (outboxRec 1).id ∧ e3.topic = (outboxRec 1).topic ∧
      e3.payload = (outboxRec 1).payload ∧
      e3.service = (outboxRec 1).service ∧
      e3.created_at = (outboxRec 1).created_at ∧
      (e3.attempts = (outboxRec 1).attempts ∨
        e3.attempts = (outboxRec 1).attempts + 1))) :=
  ⟨by decide,
   outbox_flags_monotone sampleOutbox
     [.markPub 1 5, .markPub 1 6, .incAtt 1, .incAtt 2] 1 (outboxRec 1)
     (by decide)⟩

/-! ## Kafka consumer handlers — common/handlers/kafka.py,
modules/transcription/kafka_transcription_worker.py and
modules/summary/kafka_worker.py.  Dispatching a Celery task
(`task.delay(payload)`) is modelled by appending the payload to a
dispatched queue. -/

/-- Kafka event payload fields the reliability core reads; each is present
or absent (Python dict .get). -/
structure Payload where
  eventId : Option String
  id : Option String
  videoId : Option Nat
deriving DecidableEq, Repr

/-- Python truthiness for an optional string: None and "" are falsy. -/
def truthyStr : Option String → Option String
  | some s => if s = "" then none else some s
  | none => none

/-- Python truthiness for an optional int: None and 0 are falsy. -/
def truthyNat : Option Nat → Option Nat
  | some n => if n = 0 then none else some n
  | none => none

/-- validate_kafka_payload(payload, ["videoId"]) (common/handlers/kafka.py
lines 26-55): event id is `payload.get("eventId") or payload.get("id")`
under Python truthiness; videoId is required and truthy; on failure the
event is dropped (None, None). -/
def validate_kafka_payload (p : Payload) : Option (String × Nat) :=
  let event_id := match truthyStr p.eventId with
    | some s => some s
    | none => truthyStr p.id
  match truthyNat p.videoId, event_id with
  | some vid, some eid => some (eid, vid)
  | _, _ => none

/-- Row of the video_transcripts table as read by the consumer
(database/models.py VideoTranscript). -/
structure VideoTranscriptRow where
  video_id : Nat
  status : String
deriving DecidableEq, Repr

/-- Row of the video_summaries table as read by the consumer
(database/models.py VideoSummary). -/
structure VideoSummaryRow where
  video_id : Nat
  summary_text : Option String
deriving DecidableEq, Repr

/-- Both workers wrap mark_as_processed in try/except and swallow the
error (non-critical); on error the ledger is unchanged. -/
def markProcessedCaught (db : List ProcessedRow) (event_id topic : String) :
    List ProcessedRow :=
  match mark_as_processed db event_id topic true with
  | .ok (db2, _) => db2
  | .error _ => db

/-- Topic consumed by the transcription worker. -/
def TRANSCODED_TOPIC : String := "video.transcoded"

/-- Topic consumed by the summary worker. -/
def TRANSCRIBED_TOPIC : String := "video.transcribed"

/-- State the transcoded-event consumer reads and writes. -/
structure TranscodedConsumerState where
  transcripts : List VideoTranscriptRow
  processed : List ProcessedRow
  dispatched : List Payload
deriving DecidableEq, Repr

/-- Body of handle_video_transcoded after successful validation
(kafka_transcription_worker.py lines 53-99): if a transcript for the video
exists with status "ready", skip (marking the event processed for tracking
if not already marked); otherwise queue the transcription task and mark the
event processed — the processed marker alone never suppresses the dispatch,
it only produces a warning log. -/
def transcodedStep (st : TranscodedConsumerState) (p : Payload)
    (event_id : String) (video_id : Nat) : TranscodedConsumerState :=
  if (match st.transcripts.find? (fun t => t.video_id == video_id) with
      | some t => t.status == "ready"
      | none => false) then
    if is_processed none st.processed event_id (some TRANSCODED_TOPIC)
    then st
    else
      { st with
        processed :=
          markProcessedCaught st.processed event_id TRANSCODED_TOPIC }
  else
    { st with
      dispatched := st.dispatched ++ [p],
      processed :=
        markProcessedCaught st.processed event_id TRANSCODED_TOPIC }

/-- handle_video_transcoded(payload)
(kafka_transcription_worker.py lines 23-99): drop invalid payloads, then
run the post-validation body. -/
def handle_video_transcoded (st : TranscodedConsumerState) (p : Payload) :
    TranscodedConsumerState :=
  match validate_kafka_payload p with
  | none => st
  | some (event_id, video_id) => transcodedStep st p event_id video_id

/-- State the transcribed-event consumer reads and writes. -/
structure TranscribedConsumerState where
  summaries : List VideoSummaryRow
  processed : List ProcessedRow
  dispatched : List Payload
deriving DecidableEq, Repr

/-- Completeness check used by the summary worker: `existing_summary and
existing_summary.summary_text` — Python truthiness, so None and "" are
incomplete (modules/summary/kafka_worker.py lines 56-57). -/
def summaryComplete (s : VideoSummaryRow) : Bool :=
  match s.summary_text with
  | some t => !(t == "")
  | none => false

/-- Body of handle_video_transcribed after successful validation
(modules/summary/kafka_worker.py lines 49-96): if a summary with non-empty
text exists, skip (marking processed for tracking); otherwise queue the
summarization task and mark processed — the processed marker alone never
suppresses the dispatch. -/
def transcribedStep (st : TranscribedConsumerState) (p : Payload)
    (event_id : String) (video_id : Nat) : TranscribedConsumerState :=
  if (match st.summaries.find? (fun s => s.video_id == video_id) with
      | some s => summaryComplete s
      | none => false) then
    if is_processed none st.processed event_id (some TRANSCRIBED_TOPIC)
    then st
    else
      { st with
        processed :=
          markProcessedCaught st.processed event_id TRANSCRIBED_TOPIC }
  else
    { st with
      dispatched := st.dispatched ++ [p],
      processed :=
        markProcessedCaught st.processed event_id TRANSCRIBED_TOPIC }

/-- handle_video_transcribed(payload) (modules/summary/kafka_worker.py
lines 23-96): drop invalid payloads, then run the post-validation body. -/
def handle_video_transcribed (st : TranscribedConsumerState) (p : Payload) :
    TranscribedConsumerState :=
  match validate_kafka_payload p with
  | none => st
  | some (event_id, video_id) => transcribedStep st p event_id video_id

/-- C3: for a valid event whose id is already in the processed ledger but
whose domain artifact is absent (no ready transcript for the transcription
worker; no summary with non-empty text for the summary worker), the handler
still dispatches the stage task — the processed marker alone never
suppresses dispatch. -/
theorem handlers_reprocess_when_artifact_missing :
    (∀ (st : TranscodedConsumerState) (p : Payload) (eid : String)
        (vid : Nat),
      validate_kafka_payload p = some (eid, vid) →
      is_processed none st.processed eid (some TRANSCODED_TOPIC) = true →
      (∀ t ∈ st.transcripts, t.video_id = vid → t.status ≠ "ready") →
      (handle_video_transcoded st p).dispatched = st.dispatched ++ [p]) ∧
    (∀ (st : TranscribedConsumerState) (p : Payload) (eid : String)
        (vid : Nat),
      validate_kafka_payload p = some (eid, vid) →
      is_processed none st.processed eid (some TRANSCRIBED_TOPIC) = true →
      (∀ s ∈ st.summaries, s.video_id = vid → summaryComplete s = false) →
      (handle_video_transcribed st p).dispatched = st.dispatched ++ [p]) := by
  constructor
  · intro st p eid vid hval hproc hart
    have hh : handle_video_transcoded st p = transcodedStep st p eid vid := by
      unfold handle_video_transcoded
      rw [hval]
    rw [hh]
    unfold transcodedStep
    cases hfind : st.transcripts.find? (fun t => t.video_id == vid) with
    | none => simp
    | some t =>
      have htv : t.video_id = vid := by
        have := List.find?_some hfind
        simpa using this
      have htm : t ∈ st.transcripts := List.mem_of_find?_eq_some hfind
      have hts : (t.status == "ready") = false :=
        beq_eq_false_iff_ne.mpr (hart t htm htv)
      simp [hts]
  · intro st p eid vid hval hproc hart
    have hh : handle_video_transcribed st p = transcribedStep st p eid vid := by
      unfold handle_video_transcribed
      rw [hval]
    rw [hh]
    unfold transcribedStep
    cases hfind : st.summaries.find? (fun s => s.video_id == vid) with
    | none => simp
    | some s =>
      have hsv : s.video_id = vid := by
        have := List.find?_some hfind
        simpa using this
      have hsm : s ∈ st.summaries := List.mem_of_find?_eq_some hfind
      have hsc : summaryComplete s = false := hart s hsm hsv
      simp [hsc]

/-- Witness for C3: both workers, with the event id already in the ledger —
a non-ready transcript for video 9, and a summary row whose text is the
empty string (incomplete under Python truthiness); in both cases the
payload is dispatched.  The second payload exercises the `id` fallback for
the event id. -/
theorem handlers_reprocess_witness :
    (validate_kafka_payload ⟨some "e1", none, some 9⟩ = some ("e1", 9) ∧
      (handle_video_transcoded
        ⟨[⟨9, "processing"⟩], [⟨"e1", TRANSCODED_TOPIC⟩], []⟩
        ⟨some "e1", none, some 9⟩).dispatched =
        [] ++ [⟨some "e1", none, some 9⟩]) ∧
    (validate_kafka_payload ⟨none, some "e2", some 9⟩ = some ("e2", 9) ∧
      (handle_video_transcribed
        ⟨[⟨9, some ""⟩], [⟨"e2", TRANSCRIBED_TOPIC⟩], []⟩
        ⟨none, some "e2", some 9⟩).dispatched =
        [] ++ [⟨none, some "e2", some 9⟩]) :=
  ⟨⟨by decide,
    handlers_reprocess_when_artifact_missing.1
      ⟨[⟨9, "processing"⟩], [⟨"e1", TRANSCODED_TOPIC⟩], []⟩
      ⟨some "e1", none, some 9⟩ "e1" 9 (by decide) (by decide) (by decide)⟩,
   ⟨by decide,
    handlers_reprocess_when_artifact_missing.2
      ⟨[⟨9, some ""⟩], [⟨"e2", TRANSCRIBED_TOPIC⟩], []⟩
      ⟨none, some "e2", some 9⟩ "e2" 9 (by decide) (by decide) (by decide)⟩⟩

/-! ## Terminal failure path of the transcription stage —
modules/transcription/tasks/video_transcription.py, lines 116-178 (the
`except` branch of transcribe_video_task).  `updateFails` injects a storage
failure into videos_repo.update; `logFails` injects one into the status-log
write (which log_status_change itself catches).  In Python the bare `raise`
after the terminal bookkeeping is caught by the surrounding
`except ... as status_error` handler, which re-raises the original error
`e`; so the original error propagates on every terminal branch. -/

/-- find_one(dict(id)) on the videos table. -/
def find_video (db : LogDB) (video_id : Nat) : Option VideoRow :=
  db.videos.find? (fun v => v.id == video_id)

/-- videos_repo.update(dict(id), dict(status="failed", status_message=e))
as invoked on the terminal failure path (video_transcription.py lines
136-142). -/
def update_video_status (db : LogDB) (video_id : Nat) (status : String)
    (msg : Option String) : LogDB :=
  { db with
    videos := updateFirst (fun v => v.id == video_id)
      (fun v => { v with status := status, status_message := msg })
      db.videos }

/-- log_status_change with its internal try/except made explicit: when the
underlying write fails the service catches the exception, leaves the table
unchanged and returns None (video_status_log_service.py lines 71-77). -/
def log_status_change_caught (createFails : Bool) (db : LogDB)
    (video_id : Nat) (status actor : String) (msg : Option String) :
    LogDB × Option StatusLogRow :=
  if createFails then (db, none)
  else log_status_change db video_id status actor msg

/-- How one run of the task's failure handler ends: the original error is
re-raised to the caller, or a retry is scheduled after a delay. -/
inductive TaskOutcome where
  | raised (e : String)
  | retryScheduled (delay : Nat) (e : String)
deriving DecidableEq, Repr

/-- Failure handler of transcribe_video_task (video_transcription.py lines
116-178).  Budget exhausted (current_retries ≥ max_retries - 1): set the
video to "failed" with the error message, log the transition, and re-raise
the original error — a failure in the status update or the status log never
replaces it, and no retry is scheduled.  Budget remaining: schedule a retry
after the exponential backoff delay carrying the original error. -/
def transcribe_failure_path (db : LogDB) (video_id : Nat) (e : String)
    (current_retries max_retries : Nat) (updateFails logFails : Bool) :
    LogDB × TaskOutcome :=
  if current_retries ≥ max_retries - 1 then
    match find_video db video_id with
    | some _ =>
      if updateFails then (db, .raised e)
      else
        let db1 := update_video_status db video_id "failed" (some e)
        let db2 := (log_status_change_caught logFails db1 video_id "failed"
          "python-backend" (some e)).1
        (db2, .raised e)
    | none => (db, .raised e)
  else
    (db, .retryScheduled
      (calculate_exponential_backoff_delay TRANSCRIPTION_initial_retry_delay
        current_retries 300) e)

lemma find?_updateFirst_video_self (l : List VideoRow)
    (f : VideoRow → VideoRow) (j : Nat) (v : VideoRow)
    (hf : ∀ x, (f x).id = x.id)
    (h : l.find? (fun x => x.id == j) = some v) :
    (updateFirst (fun x => x.id == j) f l).find? (fun x => x.id == j) =
      some (f v) := by
  induction l with
  | nil => exact absurd h (by simp)
  | cons a rest ih =>
    by_cases ha : (a.id == j) = true
    · have hav : a = v := by
        simp only [List.find?_cons, ha] at h
        exact Option.some.inj h
      subst hav
      have hfa : ((f a).id == j) = true := by rw [hf a]; exact ha
      simp [updateFirst, ha, List.find?_cons, hfa]
    · have hb : (a.id == j) = false := by simpa using ha
      have hrest : rest.find? (fun x => x.id == j) = some v := by
        simp only [List.find?_cons, hb] at h
        exact h
      simp only [updateFirst, hb, Bool.false_eq_true, if_false,
        List.find?_cons]
      simpa using ih hrest

lemma log_status_change_videos (db : LogDB) (vid : Nat) (s a : String)
    (m : Option String) :
    (log_status_change db vid s a m).1.videos = db.videos := by
  unfold log_status_change
  by_cases h : shouldLog db vid s = true
  · simp [h]
  · have h' : shouldLog db vid s = false := by simpa using h
    simp [h']

lemma log_status_change_caught_videos (b : Bool) (db : LogDB) (vid : Nat)
    (s a : String) (m : Option String) :
    (log_status_change_caught b db vid s a m).1.videos = db.videos := by
  unfold log_status_change_caught
  cases b with
  | true => rfl
  | false => simpa using log_status_change_videos db vid s a m

/-- C8: once the retry budget is exhausted, the failure handler of the
transcription task always re-raises the original processing error — no
retry is scheduled, and a failing status update or status log does not
replace the error — and when the status update succeeds on an existing
video, that video ends with status "failed" and the failure message
persisted. -/
theorem terminal_failure_propagates_original_error (db : LogDB)
    (video_id : Nat) (e : String) (current_retries : Nat)
    (updateFails logFails : Bool)
    (h : current_retries ≥ TRANSCRIPTION_max_retries - 1) :
    (transcribe_failure_path db video_id e current_retries
        TRANSCRIPTION_max_retries updateFails logFails).2 =
      TaskOutcome.raised e ∧
    (updateFails = false → (find_video db video_id).isSome = true →
      find_video (transcribe_failure_path db video_id e current_retries
          TRANSCRIPTION_max_retries updateFails logFails).1 video_id =
        (find_video db video_id).map
          (fun v => { v with status := "failed",
                             status_message := some e })) := by
  constructor
  · unfold transcribe_failure_path
    rw [if_pos h]
    cases hfv : find_video db video_id with
    | none => rfl
    | some v => cases updateFails <;> simp
  · intro hUF hsome
    cases hfv : find_video db video_id with
    | none => rw [hfv] at hsome; exact absurd hsome (by simp)
    | some v =>
      subst hUF
      unfold transcribe_failure_path
      rw [if_pos h, hfv]
      simp only [Bool.false_eq_true, if_false, Option.map_some]
      unfold find_video
      rw [show (log_status_change_caught logFails
          (update_video_status db video_id "failed" (some e)) video_id
          "failed" "python-backend" (some e)).1.videos =
          (update_video_status db video_id "failed" (some e)).videos from
        log_status_change_caught_videos _ _ _ _ _ _]
      exact find?_updateFirst_video_self db.videos _ video_id v
        (fun x => rfl) hfv

/-- Witness for C8: video 1 in "pending", error "boom", third attempt
(current_retries = 2) against the transcription budget of 3; the handler
re-raises "boom" and the video ends failed with the message persisted. -/
theorem terminal_failure_witness :
    2 ≥ TRANSCRIPTION_max_retries - 1 ∧
    ((transcribe_failure_path sampleLogDB 1 "boom" 2
        TRANSCRIPTION_max_retries false false).2 =
      TaskOutcome.raised "boom" ∧
    (false = false → (find_video sampleLogDB 1).isSome = true →
      find_video (transcribe_failure_path sampleLogDB 1 "boom" 2
          TRANSCRIPTION_max_retries false false).1 1 =
        (find_video sampleLogDB 1).map
          (fun v => { v with status := "failed",
                             status_message := some "boom" }))) :=
  ⟨by decide,
   terminal_failure_propagates_original_error sampleLogDB 1 "boom" 2
     false false (by decide)⟩

end YoutubeAI
